import Mathlib

/-!
Shallow embedding of the MindMate mental-wellness chatbot backend
(`safety_handler.py`, `main.py`, `response_generator.py`) and proofs about
its risk-classification and response-selection pipeline.

Strings are modelled as `List Char`.  The Python regex word-character class
`\w` is modelled on its ASCII fragment (letters, digits, underscore), which
covers every keyword in the tables and the inputs the claims quantify over.
-/

/-- Characters counted as word characters by the regex `\b` boundary
(ASCII fragment of the Python `\w` class: letters, digits, underscore). -/
def wordChar (c : Char) : Bool :=
  c.isAlpha || c.isDigit || c == '_'

/-- `true` when position `i` of `msg` holds a word character
(out of range counts as a non-word character, as in `re`). -/
def isWordAt (msg : List Char) (i : Nat) : Bool :=
  match msg[i]? with
  | some c => wordChar c
  | none => false

/-- `true` when the character just before position `i` is a word character
(at `i = 0` there is no such character). -/
def prevIsWord (msg : List Char) (i : Nat) : Bool :=
  match i with
  | 0 => false
  | j + 1 => isWordAt msg j

/-- The Python `re` word boundary `\b` holds at position `i` of `msg`:
the previous character and the one at `i` differ in word-character-ness. -/
def boundaryAt (msg : List Char) (i : Nat) : Bool :=
  prevIsWord msg i != isWordAt msg i

/-- The literal text `kw` occurs at position `i` of `msg`. -/
def occursAt (msg kw : List Char) (i : Nat) : Bool :=
  kw.isPrefixOf (msg.drop i)

/-- `SafetyHandler._keyword_match` (lines 95–113): a regex search for the
escaped keyword bracketed by word boundaries — some position of `message`
starts an occurrence of `keyword` with a word boundary on each side.
(`re.escape` makes the keyword a literal pattern; the `except` fallback on
line 111 is unreachable for a valid pattern and is not modelled.) -/
def keyword_match (message keyword : List Char) : Bool :=
  (List.range (message.length + 1)).any fun i =>
    occursAt message keyword i && boundaryAt message i &&
      boundaryAt message (i + keyword.length)

/-- The `"suicide"` category of `SafetyHandler.high_risk_keywords`. -/
def suicideKeywords : List (List Char) :=
  ["suicide".data, "suicidal".data, "kill myself".data, "end my life".data,
   "don\x27t want to live".data]

/-- The `"self_harm"` category of `SafetyHandler.high_risk_keywords`. -/
def selfHarmKeywords : List (List Char) :=
  ["self harm".data, "cut myself".data, "hurt myself".data, "injure".data,
   "harm myself".data]

/-- The `"extreme_despair"` category of `SafetyHandler.high_risk_keywords`. -/
def extremeDespairKeywords : List (List Char) :=
  ["can\x27t take it anymore".data, "hopeless".data, "no point".data,
   "nothing matters".data]

/-- The `"abuse"` category of `SafetyHandler.high_risk_keywords`. -/
def abuseKeywords : List (List Char) :=
  ["abusing me".data, "beat me".data, "hit me".data, "abuse".data,
   "violent".data]

/-- The `"acute_crisis"` category of `SafetyHandler.high_risk_keywords`. -/
def acuteCrisisKeywords : List (List Char) :=
  ["emergency".data, "urgent".data, "right now".data, "immediately".data]

/-- `SafetyHandler.high_risk_keywords`: the ordered category → phrase-list
table (Python dicts preserve insertion order). -/
def high_risk_keywords : List (List Char × List (List Char)) :=
  [("suicide".data, suicideKeywords),
   ("self_harm".data, selfHarmKeywords),
   ("extreme_despair".data, extremeDespairKeywords),
   ("abuse".data, abuseKeywords),
   ("acute_crisis".data, acuteCrisisKeywords)]

/-- `SafetyHandler.medium_risk_keywords`. -/
def medium_risk_keywords : List (List Char) :=
  ["depressed".data, "suicidal thoughts".data, "panic".data,
   "overwhelmed".data, "can\x27t cope".data, "breakdown".data, "crisis".data,
   "scared".data, "terrified".data, "dying".data, "death".data, "toxic".data,
   "trapped".data]

/-- `SafetyHandler.low_risk_keywords` (informational only; not scanned by
`assess_risk`). -/
def low_risk_keywords : List (List Char) :=
  ["sad".data, "anxious".data, "worried".data, "stressed".data,
   "frustrated".data, "tired".data, "lonely".data, "confused".data,
   "lost".data, "scared".data]

/-- The indicator string `f"{category}: {keyword}"`. -/
def mkIndicator (category keyword : List Char) : List Char :=
  category ++ ": ".data ++ keyword

/-- Indicators appended by the high-risk scan of `assess_risk`
(lines 57–60): for each category in order, for each keyword in order,
append `f"{category}: {keyword}"` when the keyword matches. -/
def highIndicators (message_lower : List Char) : List (List Char) :=
  high_risk_keywords.flatMap fun ck =>
    (ck.2.filter (keyword_match message_lower)).map (mkIndicator ck.1)

/-- Indicators appended by the medium-risk scan of `assess_risk`
(lines 64–66). -/
def mediumIndicators (message_lower : List Char) : List (List Char) :=
  (medium_risk_keywords.filter (keyword_match message_lower)).map
    (mkIndicator "medium_risk".data)

/-- The full (pre-truncation) `risk_indicators` list of `assess_risk`:
the medium-risk scan runs only when the high-risk scan found nothing
(line 63, `if not risk_indicators`). -/
def riskIndicatorsFull (message_lower : List Char) : List (List Char) :=
  let hi := highIndicators message_lower
  if hi.isEmpty then mediumIndicators message_lower else hi

/-- Python substring containment `pat in s` on strings. -/
def strContains (s pat : List Char) : Bool :=
  (List.range (s.length + 1)).any fun i => pat.isPrefixOf (s.drop i)

/-- Python `"suicide" in ind or "self_harm" in ind` (line 69). -/
def indicatorIsHigh (ind : List Char) : Bool :=
  strContains ind "suicide".data || strContains ind "self_harm".data

/-- Python `"medium_risk" in ind` (line 72). -/
def indicatorIsMediumTagged (ind : List Char) : Bool :=
  strContains ind "medium_risk".data

/-- Result record of `SafetyHandler.assess_risk`. -/
structure RiskAssessment where
  is_high_risk : Bool
  risk_level : List Char
  risk_indicators : List (List Char)
deriving DecidableEq, Repr

/-- `SafetyHandler.assess_risk` (lines 42–93).  The body is pure, so the
`except` branch returning low/empty is unreachable and not modelled. -/
def assess_risk (message : List Char) : RiskAssessment :=
  let message_lower := message.map Char.toLower
  let risk_indicators := riskIndicatorsFull message_lower
  if !risk_indicators.isEmpty && risk_indicators.any indicatorIsHigh then
    { is_high_risk := true, risk_level := "high".data,
      risk_indicators := risk_indicators.take 5 }
  else if (risk_indicators.filter indicatorIsMediumTagged).length ≥ 2 then
    { is_high_risk := false, risk_level := "medium".data,
      risk_indicators := risk_indicators.take 5 }
  else
    { is_high_risk := false, risk_level := "low".data,
      risk_indicators := risk_indicators.take 5 }

/-- `SafetyHandler.get_crisis_response` (lines 115–138): the fixed crisis
message, reproduced character for character (the source file itself contains
the double-encoded byte sequences rendered here with `\u` escapes). -/
def get_crisis_response : List Char :=
  ("I\x27m concerned about what you\x27re sharing. Your safety is important.\n\nIf you\x27re in immediate danger or having thoughts of self-harm, please reach out to emergency services or a crisis helpline right away:\n\nðŸ†˜ **Immediate Help Resources:**\nâ€¢ **National Suicide Prevention Lifeline (US):** 988 (call or text)\nâ€¢ **Crisis Text Line:** Text HOME to 741741\nâ€¢ **International Association for Suicide Prevention:** https://www.iasp.info/resources/Crisis_Centres/\nâ€¢ **Samaritans (UK):** 116 123\nâ€¢ **Lifeline (Australia):** 13 11 14\nâ€¢ **India Crisis Helpline:** 9152987821\n\nPlease reach out to someone you trust - a friend, family member, or mental health professional. You\x27re not alone in this.\n\nThis chatbot is not a substitute for professional mental health care. Please speak with a licensed therapist or counselor.").data

/-- `SafetyHandler.is_safe_to_continue` (lines 140–153). -/
def is_safe_to_continue (message : List Char) : Bool :=
  !(assess_risk message).is_high_risk

/-- The `"low"` entry of the resource table (lines 166–171). -/
def lowResources : List (List Char) :=
  ["Consider journaling about your feelings".data,
   "Try a breathing exercise when stressed".data,
   "Reach out to someone you trust".data,
   "Engage in activities that bring joy".data]

/-- The `"medium"` entry of the resource table (lines 172–177). -/
def mediumResources : List (List Char) :=
  ["Consider speaking with a counselor or therapist".data,
   "Contact a crisis support hotline".data,
   "Visit a mental health clinic".data,
   "Reach out to a trusted friend or family member".data]

/-- The `"high"` entry of the resource table (lines 178–183). -/
def highResources : List (List Char) :=
  ["**Contact emergency services immediately**".data,
   "**Call the National Suicide Prevention Lifeline: 988**".data,
   "**Go to the nearest emergency room**".data,
   "**Tell someone you trust right now**".data]

/-- `SafetyHandler.get_resource_suggestions` (lines 155–186):
`resources.get(risk_level, resources["low"])`. -/
def get_resource_suggestions (risk_level : List Char) : List (List Char) :=
  if risk_level = "low".data then lowResources
  else if risk_level = "medium".data then mediumResources
  else if risk_level = "high".data then highResources
  else lowResources

/-! ## `main.py`: the orchestrator (`chat` endpoint) -/

/-- `main.Message` (pydantic model). -/
structure Message where
  role : List Char
  content : List Char
  timestamp : Option (List Char) := none
  sentiment : Option (List Char) := none
deriving DecidableEq, Repr

/-- `main.ChatRequest`. -/
structure ChatRequest where
  message : List Char
  conversation_history : List Message := []
deriving DecidableEq, Repr

/-- Result dict of `NLPPipeline.analyze_sentiment` / `main.SentimentAnalysis`.
The score is carried through untouched by the orchestrator; it is modelled
as a rational. -/
structure SentimentResult where
  label : List Char
  score : ℚ
deriving DecidableEq, Repr

/-- `main.ChatResponse`. -/
structure ChatResponse where
  user_message : List Char
  sentiment : SentimentResult
  is_high_risk : Bool
  risk_level : List Char
  bot_response : List Char
  conversation_summary : List Char
deriving DecidableEq, Repr

/-- Outcome of the `chat` endpoint: a `ChatResponse`, or an
`HTTPException(status_code, detail)`. -/
inductive ChatOutcome where
  | ok (resp : ChatResponse)
  | httpError (status : Nat) (detail : List Char)
deriving DecidableEq, Repr

/-- Python `str.strip()`: remove whitespace from both ends. -/
def pyStrip (s : List Char) : List Char :=
  ((s.dropWhile Char.isWhitespace).reverse.dropWhile Char.isWhitespace).reverse

/-- `main._format_conversation_context` (lines 221–234):
`conversation_history[-10:]`, then one line per message, then the current
message. -/
def format_conversation_context (history : List Message)
    (current_message : List Char) : List Char :=
  let recent_history := history.drop (history.length - 10)
  let body := recent_history.foldl
    (fun acc m =>
      acc ++ (if m.role = "user".data then "User".data else "Assistant".data)
        ++ ": ".data ++ m.content ++ "\n".data)
    "Recent conversation:\n".data
  body ++ "Current user message: ".data ++ current_message

/-- `main._generate_summary` (lines 236–244). -/
def generate_summary (sentiment : List Char) : List Char :=
  if sentiment = "NEGATIVE".data then
    "User expressing difficult emotions - heightened empathy mode".data
  else
    "Conversation flowing normally - supportive mode".data

/-- The collaborators the `chat` endpoint calls: the sentiment classifier
(`nlp_pipeline.analyze_sentiment`) and the response generator
(`response_generator.generate_response`, taking user message, sentiment
label and context). -/
structure ChatDeps where
  analyze_sentiment : List Char → SentimentResult
  generate_response : List Char → List Char → List Char → List Char

/-- `main.chat` (lines 126–191): validation, sentiment, risk assessment,
then the crisis branch (the reply is the fixed crisis message and the generator is not called)
or the generation branch. -/
def chat (deps : ChatDeps) (request : ChatRequest) : ChatOutcome :=
  let user_message := pyStrip request.message
  if user_message.isEmpty then
    .httpError 400 "Message cannot be empty".data
  else if user_message.length > 5000 then
    .httpError 400 "Message too long (max 5000 characters)".data
  else
    let sentiment_result := deps.analyze_sentiment user_message
    let risk_result := assess_risk user_message
    let bot_response :=
      if risk_result.is_high_risk then get_crisis_response
      else
        deps.generate_response user_message sentiment_result.label
          (format_conversation_context request.conversation_history user_message)
    .ok { user_message := user_message
          sentiment := sentiment_result
          is_high_risk := risk_result.is_high_risk
          risk_level := risk_result.risk_level
          bot_response := bot_response
          conversation_summary := generate_summary sentiment_result.label }

/-! ## `response_generator.py`: the response generator

The network backend is modelled as an oracle describing the outcome of the
single `requests.post` call a generation attempt makes: the call raises
(timeout, connection refused, DNS failure) or returns a status code and a
body.  Prompt construction (`_build_system_prompt`, `_build_user_prompt`,
`_format_for_llama2`, lines 77–126 and 241–251) only shapes the outgoing
request payload and never the returned value, so it is not modelled.
`random.choice` is modelled by threading an arbitrary index `rand`. -/

/-- One element of a JSON array returned by the HuggingFace API:
a JSON object whose `"generated_text"` field may be absent, or a non-object
(on which `.get` raises, caught by the surrounding `except`). -/
inductive JsonItem where
  | nonDict
  | dict (generated_text : Option (List Char))
deriving DecidableEq, Repr

/-- What `response.json()` yields for a HuggingFace 200 response:
a decode error, a non-array value, or an array of items. -/
inductive HFBody where
  | badJson
  | notList
  | jlist (items : List JsonItem)
deriving DecidableEq, Repr

/-- What `response.json()` yields for an Ollama 200 response:
a decode error, a non-object value, or an object whose `"response"` field
may be absent. -/
inductive OllamaBody where
  | badJson
  | nonDict
  | dict (response_field : Option (List Char))
deriving DecidableEq, Repr

/-- Outcome of one `requests.post` call: an exception (timeout,
connection error), or an HTTP response with a status code and body. -/
inductive BackendOutcome (β : Type) where
  | netError
  | resp (status : Nat) (body : β)
deriving DecidableEq, Repr

/-- Provider configuration fixed in `ResponseGenerator.__init__`
(lines 21–39): `huggingface-api` (with its optional `HF_API_KEY`),
`ollama`, or the fallback mode used for any unknown `LLM_PROVIDER`. -/
inductive LLMProvider where
  | huggingface (api_key : Option (List Char))
  | ollama
  | fallback
deriving DecidableEq, Repr

/-- The `"NEGATIVE"` entry of `fallback_responses` (lines 221–227). -/
def negativeFallbacks : List (List Char) :=
  ["I hear that you\x27re going through a difficult time. It\x27s okay to feel this way, and I\x27m here to listen. What\x27s been the most challenging part for you?".data,
   "Thank you for sharing that with me. Those feelings are valid, and many people experience what you\x27re going through. Have you tried any coping strategies that have helped before?".data,
   "I can sense you\x27re struggling right now. That takes courage to express. Remember that difficult feelings are temporary, even when they feel overwhelming.".data,
   "It sounds like you\x27re dealing with a lot. While I can\x27t provide medical advice, I encourage you to consider talking with a counselor or therapist who can offer professional support.".data,
   "I appreciate you opening up about this. Sometimes just acknowledging what we\x27re feeling is an important first step. What would help you feel a little better right now?".data]

/-- The `"POSITIVE"` entry of `fallback_responses` (lines 228–234). -/
def positiveFallbacks : List (List Char) :=
  ["That sounds wonderful! It\x27s great to hear positive energy from you. What\x27s been contributing to this good feeling?".data,
   "I\x27m glad to hear that! Celebrating these moments is important. How are you planning to maintain this positive momentum?".data,
   "That\x27s fantastic! Keep nurturing what\x27s bringing you joy. What\x27s one thing you appreciate about yourself right now?".data,
   "Your positive outlook is inspiring! Keep channeling that energy into things that matter to you.".data,
   "That\x27s excellent! It sounds like things are moving in a good direction for you. What\x27s helping you feel this way?".data]

/-- `ResponseGenerator._generate_fallback_response` (lines 213–239):
`fallback_responses.get(sentiment, fallback_responses["POSITIVE"])`, then
`random.choice`, modelled by the index `rand`. -/
def generate_fallback_response (_user_message sentiment : List Char)
    (rand : Nat) : List Char :=
  let responses :=
    if sentiment = "NEGATIVE".data then negativeFallbacks else positiveFallbacks
  responses.getD (rand % responses.length) []

/-- The suffix of `s` after the last occurrence of `sep` — Python
`s.split(sep)[-1]` for a separator with no self-overlap, such as
`"Assistant:"`; `s` itself when `sep` does not occur. -/
def afterLast (s sep : List Char) : List Char :=
  match ((List.range (s.length + 1)).filter fun i =>
      sep.isPrefixOf (s.drop i)).getLast? with
  | some i => s.drop (i + sep.length)
  | none => s

/-- `ResponseGenerator._generate_with_huggingface` (lines 128–170).
`none` models the Python `None` that falls out of the function when the
200 body is valid JSON but not a non-empty array. -/
def generate_with_huggingface (outcome : BackendOutcome HFBody)
    (rand : Nat) : Option (List Char) :=
  match outcome with
  | .netError => some (generate_fallback_response [] "NEGATIVE".data rand)
  | .resp status body =>
    if status = 200 then
      match body with
      | .badJson => some (generate_fallback_response [] "NEGATIVE".data rand)
      | .notList => none
      | .jlist [] => none
      | .jlist (.nonDict :: _) =>
          some (generate_fallback_response [] "NEGATIVE".data rand)
      | .jlist (.dict gt :: _) =>
          some ((pyStrip (afterLast (gt.getD []) "Assistant:".data)).take 300)
    else
      some (generate_fallback_response [] "NEGATIVE".data rand)

/-- `ResponseGenerator._generate_with_ollama` (lines 172–211). -/
def generate_with_ollama (outcome : BackendOutcome OllamaBody)
    (rand : Nat) : Option (List Char) :=
  match outcome with
  | .netError => some (generate_fallback_response [] "NEGATIVE".data rand)
  | .resp status body =>
    if status = 200 then
      match body with
      | .badJson => some (generate_fallback_response [] "NEGATIVE".data rand)
      | .nonDict => some (generate_fallback_response [] "NEGATIVE".data rand)
      | .dict r => some ((pyStrip (r.getD [])).take 300)
    else
      some (generate_fallback_response [] "NEGATIVE".data rand)

/-- `ResponseGenerator.generate_response` (lines 41–75): dispatch on the
configured provider; `none` models a Python `None` return value.  The
backend oracles describe the outcome of the network call the chosen branch
would make. -/
def generate_response (provider : LLMProvider)
    (hfOutcome : BackendOutcome HFBody) (olOutcome : BackendOutcome OllamaBody)
    (user_message sentiment _context : List Char) (rand : Nat) :
    Option (List Char) :=
  match provider with
  | .huggingface (some _) => generate_with_huggingface hfOutcome rand
  | .huggingface none => some (generate_fallback_response user_message sentiment rand)
  | .ollama => generate_with_ollama olOutcome rand
  | .fallback => some (generate_fallback_response user_message sentiment rand)

/-! ## Lemmas about the word-boundary matcher -/

theorem isWordAt_of_oob {msg : List Char} {i : Nat} (h : msg.length ≤ i) :
    isWordAt msg i = false := by
  simp [isWordAt, List.getElem?_eq_none h]

theorem le_length_of_boundaryAt {msg : List Char} {i : Nat}
    (h : boundaryAt msg i = true) : i ≤ msg.length := by
  by_contra hc
  push_neg at hc
  cases i with
  | zero => omega
  | succ j =>
    have h1 : isWordAt msg j = false := isWordAt_of_oob (by omega)
    have h2 : isWordAt msg (j + 1) = false := isWordAt_of_oob (by omega)
    simp [boundaryAt, prevIsWord, h1, h2] at h

theorem keyword_match_iff {msg kw : List Char} :
    keyword_match msg kw = true ↔
      ∃ i, occursAt msg kw i = true ∧ boundaryAt msg i = true ∧
        boundaryAt msg (i + kw.length) = true := by
  constructor
  · intro h
    simp only [keyword_match, List.any_eq_true, List.mem_range,
      Bool.and_eq_true] at h
    obtain ⟨i, _, ⟨h1, h2⟩, h3⟩ := h
    exact ⟨i, h1, h2, h3⟩
  · rintro ⟨i, h1, h2, h3⟩
    simp only [keyword_match, List.any_eq_true, List.mem_range,
      Bool.and_eq_true]
    exact ⟨i, by have := le_length_of_boundaryAt h2; omega, ⟨h1, h2⟩, h3⟩

theorem prefix_of_occursAt {msg kw : List Char} {i : Nat}
    (h : occursAt msg kw i = true) : kw <+: msg.drop i :=
  List.isPrefixOf_iff_prefix.mp h

theorem getElem?_of_occursAt {msg kw : List Char} {i j : Nat}
    (h : occursAt msg kw i = true) (hj : j < kw.length) :
    msg[i + j]? = kw[j]? := by
  obtain ⟨t, ht⟩ := prefix_of_occursAt h
  rw [← List.getElem?_drop, ← ht, List.getElem?_append, if_pos hj]

theorem isWordAt_of_occursAt {msg kw : List Char} {i j : Nat}
    (h : occursAt msg kw i = true) (hj : j < kw.length) :
    isWordAt msg (i + j) = wordChar (kw.getD j ' ') := by
  have hg : msg[i + j]? = some (kw.getD j ' ') := by
    rw [getElem?_of_occursAt h hj]
    simp [List.getElem?_eq_getElem hj, List.getD_eq_getElem?_getD]
  simp [isWordAt, hg]

theorem occursAt_lt_length {msg kw : List Char} {i : Nat} (hkw : kw ≠ [])
    (h : occursAt msg kw i = true) : i < msg.length := by
  have hlen := (prefix_of_occursAt h).length_le
  rw [List.length_drop] at hlen
  have := List.length_pos.mpr hkw
  omega

/-- A keyword that starts and ends with a word character is not matched
when every one of its occurrences has a word character directly adjacent
on some side. -/
theorem keyword_match_eq_false_of_subtoken {msg kw : List Char}
    (hne : kw ≠ [])
    (hhead : wordChar (kw.getD 0 ' ') = true)
    (hlast : wordChar (kw.getD (kw.length - 1) ' ') = true)
    (hocc : ∀ i < msg.length, occursAt msg kw i = true →
      prevIsWord msg i = true ∨ isWordAt msg (i + kw.length) = true) :
    keyword_match msg kw = false := by
  by_contra hc
  rw [Bool.not_eq_false, keyword_match_iff] at hc
  obtain ⟨i, h1, h2, h3⟩ := hc
  have hlen : 0 < kw.length := List.length_pos.mpr hne
  -- the first keyword character sits at position i and is a word character
  have hw0 : isWordAt msg i = true := by
    have h := isWordAt_of_occursAt h1 hlen
    rw [Nat.add_zero] at h
    rw [h]
    exact hhead
  -- so the left boundary forces a non-word character before the match
  have hprev : prevIsWord msg i = false := by
    rcases hb : prevIsWord msg i with _ | _
    · rfl
    · rw [boundaryAt, hb, hw0] at h2
      simp at h2
  -- the last keyword character sits at position i + kw.length - 1
  obtain ⟨m, hm⟩ : ∃ m, kw.length = m + 1 :=
    ⟨kw.length - 1, by omega⟩
  have hwlast : isWordAt msg (i + m) = true := by
    have h := isWordAt_of_occursAt h1 (j := m) (by omega)
    rw [h]
    have hm1 : kw.length - 1 = m := by omega
    rw [← hm1]
    exact hlast
  -- so the right boundary forces a non-word character after the match
  have hnext : isWordAt msg (i + kw.length) = false := by
    have hpr : prevIsWord msg (i + kw.length) = isWordAt msg (i + m) := by
      rw [hm]
      rfl
    rcases hb : isWordAt msg (i + kw.length) with _ | _
    · rfl
    · rw [boundaryAt, hpr, hwlast, hb] at h3
      simp at h3
  rcases hocc i (occursAt_lt_length hne h1) h1 with h | h
  · rw [hprev] at h
    exact Bool.false_ne_true h
  · rw [hnext] at h
    exact Bool.false_ne_true h

/-! ## Indicator machinery

Claim-side category notions: an indicator string *belongs to a category*
when it is the rendering `"category: keyword"` of a keyword of that
category.  The code instead tests substring containment
(`indicatorIsHigh`, `indicatorIsMediumTagged`); the two agree on every
indicator string the scanner can produce, which is checked by `decide`
over the finite tables. -/

/-- All indicator strings the high-risk scan can produce, in scan order. -/
def highCategoryIndicatorStrings : List (List Char) :=
  high_risk_keywords.flatMap fun ck => ck.2.map (mkIndicator ck.1)

/-- All indicator strings the medium-risk scan can produce, in scan order. -/
def mediumIndicatorStrings : List (List Char) :=
  medium_risk_keywords.map (mkIndicator "medium_risk".data)

/-- All indicator strings `assess_risk` can produce. -/
def allIndicatorStrings : List (List Char) :=
  highCategoryIndicatorStrings ++ mediumIndicatorStrings

/-- Indicator strings of the `"suicide"` and `"self_harm"` categories. -/
def ssIndicatorStrings : List (List Char) :=
  suicideKeywords.map (mkIndicator "suicide".data) ++
    selfHarmKeywords.map (mkIndicator "self_harm".data)

/-- `ind` is an indicator of the `"suicide"` or `"self_harm"` category. -/
def suicideOrSelfHarmCat (ind : List Char) : Bool :=
  ssIndicatorStrings.contains ind

/-- `ind` is an indicator of some high-risk category. -/
def highCat (ind : List Char) : Bool :=
  highCategoryIndicatorStrings.contains ind

/-- `ind` is an indicator of the medium-risk scan. -/
def mediumCat (ind : List Char) : Bool :=
  mediumIndicatorStrings.contains ind

/-- The matched indicators contributed by one category. -/
def catIndicators (cat : List Char) (kws : List (List Char))
    (m : List Char) : List (List Char) :=
  (kws.filter (keyword_match m)).map (mkIndicator cat)

/-- The matched suicide/self-harm indicators, which the scan emits first. -/
def ssMatched (m : List Char) : List (List Char) :=
  catIndicators "suicide".data suicideKeywords m ++
    catIndicators "self_harm".data selfHarmKeywords m

/-- The matched indicators of the three remaining high-risk categories. -/
def otherMatched (m : List Char) : List (List Char) :=
  catIndicators "extreme_despair".data extremeDespairKeywords m ++
    (catIndicators "abuse".data abuseKeywords m ++
      catIndicators "acute_crisis".data acuteCrisisKeywords m)

theorem highIndicators_decomp (m : List Char) :
    highIndicators m = ssMatched m ++ otherMatched m := by
  simp [highIndicators, high_risk_keywords, catIndicators, ssMatched,
    otherMatched]

theorem mem_highIndicators {m ind : List Char} (h : ind ∈ highIndicators m) :
    ∃ ck ∈ high_risk_keywords, ∃ kw ∈ ck.2,
      keyword_match m kw = true ∧ ind = mkIndicator ck.1 kw := by
  simp only [highIndicators, List.mem_flatMap, List.mem_map,
    List.mem_filter] at h
  obtain ⟨ck, hck, kw, ⟨hkw, hmatch⟩, rfl⟩ := h
  exact ⟨ck, hck, kw, hkw, hmatch, rfl⟩

theorem mem_mediumIndicators {m ind : List Char}
    (h : ind ∈ mediumIndicators m) :
    ∃ kw ∈ medium_risk_keywords, keyword_match m kw = true ∧
      ind = mkIndicator "medium_risk".data kw := by
  simp only [mediumIndicators, List.mem_map, List.mem_filter] at h
  obtain ⟨kw, ⟨hkw, hmatch⟩, rfl⟩ := h
  exact ⟨kw, hkw, hmatch, rfl⟩

theorem highIndicators_mem_strings {m ind : List Char}
    (h : ind ∈ highIndicators m) : ind ∈ highCategoryIndicatorStrings := by
  obtain ⟨ck, hck, kw, hkw, _, rfl⟩ := mem_highIndicators h
  simp only [highCategoryIndicatorStrings, List.mem_flatMap, List.mem_map]
  exact ⟨ck, hck, kw, hkw, rfl⟩

theorem mediumIndicators_mem_strings {m ind : List Char}
    (h : ind ∈ mediumIndicators m) : ind ∈ mediumIndicatorStrings := by
  obtain ⟨kw, hkw, _, rfl⟩ := mem_mediumIndicators h
  simp only [mediumIndicatorStrings, List.mem_map]
  exact ⟨kw, hkw, rfl⟩

theorem riskIndicatorsFull_cases (m : List Char) :
    riskIndicatorsFull m = highIndicators m ∧ highIndicators m ≠ [] ∨
      riskIndicatorsFull m = mediumIndicators m ∧ highIndicators m = [] := by
  unfold riskIndicatorsFull
  by_cases he : (highIndicators m).isEmpty
  · right
    rw [List.isEmpty_iff] at he
    simp [he]
  · left
    rw [List.isEmpty_iff] at he
    simp [he]

theorem mem_full_mem_strings {m ind : List Char}
    (h : ind ∈ riskIndicatorsFull m) : ind ∈ allIndicatorStrings := by
  rcases riskIndicatorsFull_cases m with ⟨heq, _⟩ | ⟨heq, _⟩
  · rw [heq] at h
    exact List.mem_append_left _ (highIndicators_mem_strings h)
  · rw [heq] at h
    exact List.mem_append_right _ (mediumIndicators_mem_strings h)

/-- On every producible indicator string, the substring test of line 69
agrees with membership of the suicide/self-harm categories. -/
theorem isHigh_eq_ssCat :
    ∀ ind ∈ allIndicatorStrings,
      indicatorIsHigh ind = suicideOrSelfHarmCat ind := by decide

/-- On every producible indicator string, the substring test of line 72
agrees with being a medium-risk indicator. -/
theorem isMedTagged_eq_medCat :
    ∀ ind ∈ allIndicatorStrings,
      indicatorIsMediumTagged ind = mediumCat ind := by decide

theorem ssStrings_isHigh :
    ∀ ind ∈ ssIndicatorStrings, indicatorIsHigh ind = true := by decide

theorem mediumStrings_not_isHigh :
    ∀ ind ∈ mediumIndicatorStrings, indicatorIsHigh ind = false := by decide

theorem highStrings_not_isMedTagged :
    ∀ ind ∈ highCategoryIndicatorStrings,
      indicatorIsMediumTagged ind = false := by decide

theorem mediumStrings_isMedTagged :
    ∀ ind ∈ mediumIndicatorStrings,
      indicatorIsMediumTagged ind = true := by decide

theorem highCat_on_mediumStrings :
    ∀ ind ∈ mediumIndicatorStrings, highCat ind = false := by decide

theorem ssMatched_mem_strings {m ind : List Char} (h : ind ∈ ssMatched m) :
    ind ∈ ssIndicatorStrings := by
  simp only [ssMatched, catIndicators, List.mem_append, List.mem_map,
    List.mem_filter] at h
  simp only [ssIndicatorStrings, List.mem_append, List.mem_map]
  rcases h with ⟨kw, ⟨hkw, _⟩, rfl⟩ | ⟨kw, ⟨hkw, _⟩, rfl⟩
  · exact Or.inl ⟨kw, hkw, rfl⟩
  · exact Or.inr ⟨kw, hkw, rfl⟩

theorem otherMatched_not_isHigh {m ind : List Char}
    (h : ind ∈ otherMatched m) : indicatorIsHigh ind = false := by
  have hmem : ∀ x ∈
      (extremeDespairKeywords.map (mkIndicator "extreme_despair".data) ++
        (abuseKeywords.map (mkIndicator "abuse".data) ++
          acuteCrisisKeywords.map (mkIndicator "acute_crisis".data))),
      indicatorIsHigh x = false := by decide
  apply hmem
  simp only [otherMatched, catIndicators, List.mem_append, List.mem_map,
    List.mem_filter] at h ⊢
  rcases h with ⟨kw, ⟨hkw, _⟩, rfl⟩ | ⟨kw, ⟨hkw, _⟩, rfl⟩ | ⟨kw, ⟨hkw, _⟩, rfl⟩
  · exact Or.inl ⟨kw, hkw, rfl⟩
  · exact Or.inr (Or.inl ⟨kw, hkw, rfl⟩)
  · exact Or.inr (Or.inr ⟨kw, hkw, rfl⟩)

/-! ## Case equations for `assess_risk` -/

theorem assess_risk_eq (message : List Char) :
    assess_risk message =
      if !(riskIndicatorsFull (message.map Char.toLower)).isEmpty &&
          (riskIndicatorsFull (message.map Char.toLower)).any indicatorIsHigh
      then
        ⟨true, "high".data,
          (riskIndicatorsFull (message.map Char.toLower)).take 5⟩
      else if 2 ≤ ((riskIndicatorsFull (message.map Char.toLower)).filter
          indicatorIsMediumTagged).length then
        ⟨false, "medium".data,
          (riskIndicatorsFull (message.map Char.toLower)).take 5⟩
      else
        ⟨false, "low".data,
          (riskIndicatorsFull (message.map Char.toLower)).take 5⟩ := rfl

theorem assess_risk_high {message : List Char}
    (h : (riskIndicatorsFull (message.map Char.toLower)).any
        indicatorIsHigh = true) :
    assess_risk message =
      ⟨true, "high".data,
        (riskIndicatorsFull (message.map Char.toLower)).take 5⟩ := by
  have hne : (riskIndicatorsFull (message.map Char.toLower)).isEmpty
      = false := by
    obtain ⟨x, hx, _⟩ := List.any_eq_true.mp h
    rcases hl : riskIndicatorsFull (message.map Char.toLower) with _ | ⟨a, l⟩
    · rw [hl] at hx
      exact absurd hx (List.not_mem_nil x)
    · rfl
  rw [assess_risk_eq, hne, h]
  rfl

theorem assess_risk_medium {message : List Char}
    (h1 : (riskIndicatorsFull (message.map Char.toLower)).any
        indicatorIsHigh = false)
    (h2 : 2 ≤ ((riskIndicatorsFull (message.map Char.toLower)).filter
        indicatorIsMediumTagged).length) :
    assess_risk message =
      ⟨false, "medium".data,
        (riskIndicatorsFull (message.map Char.toLower)).take 5⟩ := by
  rw [assess_risk_eq, h1]
  rw [Bool.and_false, if_neg (by simp), if_pos h2]

theorem assess_risk_low {message : List Char}
    (h1 : (riskIndicatorsFull (message.map Char.toLower)).any
        indicatorIsHigh = false)
    (h2 : ((riskIndicatorsFull (message.map Char.toLower)).filter
        indicatorIsMediumTagged).length < 2) :
    assess_risk message =
      ⟨false, "low".data,
        (riskIndicatorsFull (message.map Char.toLower)).take 5⟩ := by
  rw [assess_risk_eq, h1]
  rw [Bool.and_false, if_neg (by simp), if_neg (by omega)]

theorem ssCat_iff_mem {ind : List Char} :
    suicideOrSelfHarmCat ind = true ↔ ind ∈ ssIndicatorStrings := by
  simp [suicideOrSelfHarmCat, List.contains, List.elem_iff]

theorem highCat_iff_mem {ind : List Char} :
    highCat ind = true ↔ ind ∈ highCategoryIndicatorStrings := by
  simp [highCat, List.contains, List.elem_iff]

theorem mediumCat_iff_mem {ind : List Char} :
    mediumCat ind = true ↔ ind ∈ mediumIndicatorStrings := by
  simp [mediumCat, List.contains, List.elem_iff]

theorem ssStrings_highCat :
    ∀ ind ∈ ssIndicatorStrings, highCat ind = true := by decide

/-! ## The tier decision survives the truncation to five indicators -/

theorem take5_any_isHigh (m : List Char) :
    ((riskIndicatorsFull m).take 5).any indicatorIsHigh =
      (riskIndicatorsFull m).any indicatorIsHigh := by
  rcases hfull : (riskIndicatorsFull m).any indicatorIsHigh with _ | _
  · rw [List.any_eq_false] at hfull ⊢
    intro x hx
    exact hfull x (List.mem_of_mem_take hx)
  · obtain ⟨ind, hind, hhigh⟩ := List.any_eq_true.mp hfull
    rcases riskIndicatorsFull_cases m with ⟨heq, _⟩ | ⟨heq, _⟩
    · rw [heq] at hind ⊢
      rw [highIndicators_decomp] at hind ⊢
      have hss : ind ∈ ssMatched m := by
        rcases List.mem_append.mp hind with h | h
        · exact h
        · rw [otherMatched_not_isHigh h] at hhigh
          exact absurd hhigh (by decide)
      rcases hd : ssMatched m with _ | ⟨x, xs⟩
      · rw [hd] at hss
        exact absurd hss (List.not_mem_nil ind)
      · have hx : indicatorIsHigh x = true :=
          ssStrings_isHigh x (ssMatched_mem_strings (hd ▸ List.mem_cons_self x xs))
        have hmem : x ∈ List.take 5 (x :: (xs ++ otherMatched m)) :=
          List.mem_take_iff_getElem.mpr
            ⟨0, Nat.lt_min.mpr ⟨by omega, Nat.succ_pos _⟩, rfl⟩
        exact List.any_eq_true.mpr ⟨x, hmem, hx⟩
    · rw [heq] at hind
      rw [mediumStrings_not_isHigh ind (mediumIndicators_mem_strings hind)]
        at hhigh
      exact absurd hhigh (by decide)

theorem take5_medium_count (m : List Char) :
    2 ≤ (((riskIndicatorsFull m).take 5).filter
        indicatorIsMediumTagged).length ↔
      2 ≤ ((riskIndicatorsFull m).filter indicatorIsMediumTagged).length := by
  rcases riskIndicatorsFull_cases m with ⟨heq, _⟩ | ⟨heq, _⟩
  · have hz : ∀ x ∈ riskIndicatorsFull m,
        indicatorIsMediumTagged x = false := by
      intro x hx
      rw [heq] at hx
      exact highStrings_not_isMedTagged x (highIndicators_mem_strings hx)
    have h1 : (riskIndicatorsFull m).filter indicatorIsMediumTagged = [] :=
      List.filter_eq_nil.mpr fun a ha => by rw [hz a ha]; simp
    have h2 : ((riskIndicatorsFull m).take 5).filter
        indicatorIsMediumTagged = [] :=
      List.filter_eq_nil.mpr fun a ha => by
        rw [hz a (List.mem_of_mem_take ha)]; simp
    rw [h1, h2]
  · have hall : ∀ x ∈ riskIndicatorsFull m,
        indicatorIsMediumTagged x = true := by
      intro x hx
      rw [heq] at hx
      exact mediumStrings_isMedTagged x (mediumIndicators_mem_strings hx)
    have h1 : (riskIndicatorsFull m).filter indicatorIsMediumTagged =
        riskIndicatorsFull m := List.filter_eq_self.mpr hall
    have h2 : ((riskIndicatorsFull m).take 5).filter indicatorIsMediumTagged =
        (riskIndicatorsFull m).take 5 :=
      List.filter_eq_self.mpr fun a ha => hall a (List.mem_of_mem_take ha)
    rw [h1, h2, List.length_take]
    omega

theorem exists_ssCat_of_anyHigh {m : List Char}
    (h : (riskIndicatorsFull m).any indicatorIsHigh = true) :
    ∃ ind ∈ (riskIndicatorsFull m).take 5,
      suicideOrSelfHarmCat ind = true := by
  rw [← take5_any_isHigh] at h
  obtain ⟨ind, hmem, hhigh⟩ := List.any_eq_true.mp h
  refine ⟨ind, hmem, ?_⟩
  rw [← isHigh_eq_ssCat ind
    (mem_full_mem_strings (List.mem_of_mem_take hmem))]
  exact hhigh

theorem no_ssCat_of_not_anyHigh {m : List Char}
    (h : (riskIndicatorsFull m).any indicatorIsHigh = false) :
    ∀ ind ∈ (riskIndicatorsFull m).take 5,
      suicideOrSelfHarmCat ind = false := by
  intro ind hmem
  have hfull := List.mem_of_mem_take hmem
  rcases hc : suicideOrSelfHarmCat ind with _ | _
  · rfl
  · have hh : indicatorIsHigh ind = true := by
      rw [isHigh_eq_ssCat ind (mem_full_mem_strings hfull)]
      exact hc
    rw [List.any_eq_false] at h
    exact absurd hh (h ind hfull)

theorem full_eq_medium_of_count {m : List Char}
    (h : 2 ≤ ((riskIndicatorsFull m).filter indicatorIsMediumTagged).length) :
    riskIndicatorsFull m = mediumIndicators m := by
  rcases riskIndicatorsFull_cases m with ⟨heq, _⟩ | ⟨heq, _⟩
  · exfalso
    have hz : (riskIndicatorsFull m).filter indicatorIsMediumTagged = [] :=
      List.filter_eq_nil.mpr fun a ha => by
        rw [heq] at ha
        rw [highStrings_not_isMedTagged a (highIndicators_mem_strings ha)]
        simp
    rw [hz] at h
    simp at h
  · exact heq

/-- **C1** — For every input text, the assessment returned by
`SafetyHandler.assess_risk` satisfies the tier invariant: `is_high_risk` is
true iff the returned indicator list contains an indicator of the
`"suicide"` or `"self_harm"` category, and `is_high_risk = true` implies
`risk_level = "high"`; `risk_level = "medium"` holds exactly when the list
has at least two medium-risk indicators and no high-risk-category
indicator; in every other case `risk_level = "low"`. -/
theorem c1_tier_invariant (message : List Char) :
    ((assess_risk message).is_high_risk = true ↔
      ∃ ind ∈ (assess_risk message).risk_indicators,
        suicideOrSelfHarmCat ind = true) ∧
    ((assess_risk message).is_high_risk = true →
      (assess_risk message).risk_level = "high".data) ∧
    ((assess_risk message).risk_level = "medium".data ↔
      2 ≤ ((assess_risk message).risk_indicators.filter mediumCat).length ∧
        ∀ ind ∈ (assess_risk message).risk_indicators,
          highCat ind = false) ∧
    ((¬∃ ind ∈ (assess_risk message).risk_indicators,
        suicideOrSelfHarmCat ind = true) →
      ¬(2 ≤ ((assess_risk message).risk_indicators.filter mediumCat).length ∧
        ∀ ind ∈ (assess_risk message).risk_indicators,
          highCat ind = false) →
      (assess_risk message).risk_level = "low".data) := by
  rcases hA : (riskIndicatorsFull (message.map Char.toLower)).any
      indicatorIsHigh with _ | _
  · -- no suicide/self-harm indicator: medium or low branch
    by_cases hC : 2 ≤ ((riskIndicatorsFull (message.map Char.toLower)).filter
        indicatorIsMediumTagged).length
    · -- medium branch
      have hEq := assess_risk_medium hA hC
      rw [hEq]
      dsimp only
      have hmedfull := full_eq_medium_of_count hC
      have hcongr : ((riskIndicatorsFull (message.map Char.toLower)).take
          5).filter mediumCat =
          ((riskIndicatorsFull (message.map Char.toLower)).take 5).filter
            indicatorIsMediumTagged :=
        List.filter_congr fun x hx =>
          (isMedTagged_eq_medCat x
            (mem_full_mem_strings (List.mem_of_mem_take hx))).symm
      have hB : 2 ≤ (((riskIndicatorsFull (message.map Char.toLower)).take
            5).filter mediumCat).length ∧
          ∀ ind ∈ (riskIndicatorsFull (message.map Char.toLower)).take 5,
            highCat ind = false := by
        constructor
        · rw [hcongr]
          exact (take5_medium_count (message.map Char.toLower)).mpr hC
        · intro ind hmem
          have hfull := List.mem_of_mem_take hmem
          rw [hmedfull] at hfull
          exact highCat_on_mediumStrings ind
            (mediumIndicators_mem_strings hfull)
      refine ⟨?_, ?_, ?_, ?_⟩
      · constructor
        · intro h
          exact absurd h (by decide)
        · rintro ⟨ind, hmem, hss⟩
          rw [no_ssCat_of_not_anyHigh hA ind hmem] at hss
          exact absurd hss (by decide)
      · intro h
        exact absurd h (by decide)
      · exact ⟨fun _ => hB, fun _ => rfl⟩
      · intro _ hnB
        exact absurd hB hnB
    · -- low branch
      have hEq := assess_risk_low hA (by omega)
      rw [hEq]
      dsimp only
      refine ⟨?_, ?_, ?_, ?_⟩
      · constructor
        · intro h
          exact absurd h (by decide)
        · rintro ⟨ind, hmem, hss⟩
          rw [no_ssCat_of_not_anyHigh hA ind hmem] at hss
          exact absurd hss (by decide)
      · intro h
        exact absurd h (by decide)
      · constructor
        · intro h
          exact absurd h (by decide)
        · rintro ⟨hcnt, _⟩
          have hcongr : ((riskIndicatorsFull (message.map Char.toLower)).take
              5).filter mediumCat =
              ((riskIndicatorsFull (message.map Char.toLower)).take 5).filter
                indicatorIsMediumTagged :=
            List.filter_congr fun x hx =>
              (isMedTagged_eq_medCat x
                (mem_full_mem_strings (List.mem_of_mem_take hx))).symm
          rw [hcongr] at hcnt
          exact absurd ((take5_medium_count (message.map Char.toLower)).mp
            hcnt) hC
      · intro _ _
        rfl
  · -- suicide/self-harm indicator present: high branch
    have hEq := assess_risk_high hA
    rw [hEq]
    dsimp only
    obtain ⟨ind0, hmem0, hss0⟩ := exists_ssCat_of_anyHigh hA
    refine ⟨?_, ?_, ?_, ?_⟩
    · exact ⟨fun _ => ⟨ind0, hmem0, hss0⟩, fun _ => rfl⟩
    · intro _
      rfl
    · constructor
      · intro h
        exact absurd h (by decide)
      · rintro ⟨_, hnone⟩
        have h1 := hnone ind0 hmem0
        have h2 : highCat ind0 = true :=
          ssStrings_highCat ind0 (ssCat_iff_mem.mp hss0)
        rw [h1] at h2
        exact absurd h2 (by decide)
    · intro hno _
      exact absurd ⟨ind0, hmem0, hss0⟩ hno

/-- Witness for C1 at a concrete high-risk message. -/
theorem c1_tier_invariant_witness :
    ∃ ind ∈ (assess_risk "I want to kill myself".data).risk_indicators,
      suicideOrSelfHarmCat ind = true :=
  (c1_tier_invariant "I want to kill myself".data).1.mp (by decide)

theorem mkIndicator_mem_highIndicators {m kw : List Char}
    (ck : List Char × List (List Char)) (hck : ck ∈ high_risk_keywords)
    (hkw : kw ∈ ck.2) (hmatch : keyword_match m kw = true) :
    mkIndicator ck.1 kw ∈ highIndicators m := by
  simp only [highIndicators, List.mem_flatMap, List.mem_map, List.mem_filter]
  exact ⟨ck, hck, kw, ⟨hkw, hmatch⟩, rfl⟩

theorem full_eq_high_of_ne {m : List Char} (h : highIndicators m ≠ []) :
    riskIndicatorsFull m = highIndicators m := by
  rcases riskIndicatorsFull_cases m with ⟨heq, _⟩ | ⟨_, heq⟩
  · exact heq
  · exact absurd heq h

theorem ne_nil_of_mem {α : Type} {a : α} {l : List α} (h : a ∈ l) :
    l ≠ [] := by
  intro hnil
  rw [hnil] at h
  exact absurd h (List.not_mem_nil a)

theorem assess_indicators_eq (message : List Char) :
    (assess_risk message).risk_indicators =
      (riskIndicatorsFull (message.map Char.toLower)).take 5 := by
  rw [assess_risk_eq]
  split_ifs <;> rfl

/-- With a matched suicide- or self-harm-category keyword, `assess_risk`
lands in the high branch. -/
theorem anyHigh_of_ss_match {m kw : List Char}
    (hkw : kw ∈ suicideKeywords ∨ kw ∈ selfHarmKeywords)
    (hmatch : keyword_match m kw = true) :
    (riskIndicatorsFull m).any indicatorIsHigh = true := by
  have hmem : ∃ ind ∈ highIndicators m, indicatorIsHigh ind = true := by
    rcases hkw with hkw | hkw
    · refine ⟨mkIndicator "suicide".data kw,
        mkIndicator_mem_highIndicators ("suicide".data, suicideKeywords)
          (by decide) hkw hmatch, ?_⟩
      exact ssStrings_isHigh _ (by
        simp only [ssIndicatorStrings, List.mem_append, List.mem_map]
        exact Or.inl ⟨kw, hkw, rfl⟩)
    · refine ⟨mkIndicator "self_harm".data kw,
        mkIndicator_mem_highIndicators
          ("self_harm".data, selfHarmKeywords) (by decide) hkw
          hmatch, ?_⟩
      exact ssStrings_isHigh _ (by
        simp only [ssIndicatorStrings, List.mem_append, List.mem_map]
        exact Or.inr ⟨kw, hkw, rfl⟩)
  obtain ⟨ind, hind, hhigh⟩ := hmem
  rw [full_eq_high_of_ne (ne_nil_of_mem hind)]
  exact List.any_eq_true.mpr ⟨ind, hind, hhigh⟩

/-- **C2, counterexample** — `"hopeless"` is a phrase of the high-risk
table (category `"extreme_despair"`) and word-boundary-matches the text
`"I feel hopeless"`, yet `assess_risk` reports `is_high_risk = false` and
`risk_level = "low"`, refuting the claim for phrases outside the
`"suicide"`/`"self_harm"` categories. -/
theorem c2_counterexample :
    "hopeless".data ∈ extremeDespairKeywords ∧
    ("extreme_despair".data, extremeDespairKeywords) ∈ high_risk_keywords ∧
    keyword_match ("I feel hopeless".data.map Char.toLower)
      "hopeless".data = true ∧
    (assess_risk "I feel hopeless".data).is_high_risk = false ∧
    (assess_risk "I feel hopeless".data).risk_level = "low".data := by
  decide

/-- **C2, amended** — for every text that word-boundary-matches a phrase
of the `"suicide"` or `"self_harm"` category (rather than an arbitrary
high-risk-table phrase), `assess_risk` returns `is_high_risk = true`,
`risk_level = "high"`, and an indicator of the suicide/self-harm
categories. -/
theorem c2_high_risk_phrase (message kw : List Char)
    (hkw : kw ∈ suicideKeywords ∨ kw ∈ selfHarmKeywords)
    (hmatch : keyword_match (message.map Char.toLower) kw = true) :
    (assess_risk message).is_high_risk = true ∧
    (assess_risk message).risk_level = "high".data ∧
    ∃ ind ∈ (assess_risk message).risk_indicators,
      suicideOrSelfHarmCat ind = true := by
  have hany := anyHigh_of_ss_match hkw hmatch
  rw [assess_risk_high hany]
  exact ⟨rfl, rfl, exists_ssCat_of_anyHigh hany⟩

/-- Witness for the amended C2 at the spec example text. -/
theorem c2_high_risk_phrase_witness :
    ("kill myself".data ∈ suicideKeywords ∨
      "kill myself".data ∈ selfHarmKeywords) ∧
    keyword_match ("I want to kill myself".data.map Char.toLower)
      "kill myself".data = true ∧
    (assess_risk "I want to kill myself".data).is_high_risk = true :=
  ⟨by decide, by decide,
    (c2_high_risk_phrase "I want to kill myself".data "kill myself".data
      (by decide) (by decide)).1⟩

theorem chat_unfold (deps : ChatDeps) (request : ChatRequest) :
    chat deps request =
      if (pyStrip request.message).isEmpty then
        .httpError 400 "Message cannot be empty".data
      else if (pyStrip request.message).length > 5000 then
        .httpError 400 "Message too long (max 5000 characters)".data
      else
        .ok { user_message := pyStrip request.message
              sentiment := deps.analyze_sentiment (pyStrip request.message)
              is_high_risk :=
                (assess_risk (pyStrip request.message)).is_high_risk
              risk_level := (assess_risk (pyStrip request.message)).risk_level
              bot_response :=
                if (assess_risk (pyStrip request.message)).is_high_risk then
                  get_crisis_response
                else
                  deps.generate_response (pyStrip request.message)
                    (deps.analyze_sentiment (pyStrip request.message)).label
                    (format_conversation_context request.conversation_history
                      (pyStrip request.message))
              conversation_summary :=
                generate_summary
                  (deps.analyze_sentiment (pyStrip request.message)).label } :=
  rfl

/-- **C3** — for every chat request whose (stripped) message is assessed
high-risk, the orchestrator's outcome does not depend on the response
generator at all (any two dependency bundles with the same sentiment
classifier produce the same outcome), and when the request passes
validation, the reply equals the fixed crisis message character for
character. -/
theorem c3_crisis_branch (deps1 deps2 : ChatDeps) (request : ChatRequest)
    (hs : deps1.analyze_sentiment = deps2.analyze_sentiment)
    (hrisk : (assess_risk (pyStrip request.message)).is_high_risk = true) :
    chat deps1 request = chat deps2 request ∧
    ∀ resp, chat deps1 request = .ok resp →
      resp.bot_response = get_crisis_response := by
  constructor
  · rw [chat_unfold deps1, chat_unfold deps2, hs]
    by_cases h1 : (pyStrip request.message).isEmpty
    · simp [h1]
    · by_cases h2 : (pyStrip request.message).length > 5000
      · simp [h1, h2]
      · simp [h1, h2, hrisk]
  · intro resp hresp
    rw [chat_unfold deps1] at hresp
    by_cases h1 : (pyStrip request.message).isEmpty
    · simp [h1] at hresp
    · by_cases h2 : (pyStrip request.message).length > 5000
      · simp [h1, h2] at hresp
      · simp [h1, h2, hrisk] at hresp
        rw [← hresp]

/-- Witness for C3: two bundles differing only in their generator yield
the same outcome on a high-risk request, whose reply is the crisis text. -/
theorem c3_crisis_branch_witness :
    chat ⟨fun _ => ⟨"NEGATIVE".data, 1⟩, fun _ _ _ => "generator A".data⟩
        ⟨"I want to kill myself".data, []⟩ =
      chat ⟨fun _ => ⟨"NEGATIVE".data, 1⟩, fun _ _ _ => "generator B".data⟩
        ⟨"I want to kill myself".data, []⟩ ∧
    ∀ resp,
      chat ⟨fun _ => ⟨"NEGATIVE".data, 1⟩, fun _ _ _ => "generator A".data⟩
          ⟨"I want to kill myself".data, []⟩ = .ok resp →
        resp.bot_response = get_crisis_response :=
  c3_crisis_branch _ _ _ rfl (by decide)

/-- **C4** (failing evaluation) — with the HuggingFace provider configured
and an API key present, a 200 response whose JSON body is
`[ \x7b "generated_text": "" \x7d ]` makes `generate_response` return the
empty string, and a 200 response whose body is the empty array `[]` makes
it return `None`; both violate the guarantee that a non-empty string is
always returned. -/
theorem c4_empty_generation_bug :
    generate_response (.huggingface (some "key".data))
        (.resp 200 (.jlist [.dict (some [])])) .netError
        "I feel sad".data "NEGATIVE".data [] 0 = some [] ∧
    generate_response (.huggingface (some "key".data))
        (.resp 200 (.jlist [])) .netError
        "I feel sad".data "NEGATIVE".data [] 0 = none := by
  decide

theorem highStrings_not_mediumCat :
    ∀ ind ∈ highCategoryIndicatorStrings, mediumCat ind = false := by decide

/-- With some high-risk-category phrase matched, the full indicator list is
exactly the high-risk scan output (the medium scan is skipped). -/
theorem full_eq_high_of_match {m kw : List Char}
    {ck : List Char × List (List Char)} (hck : ck ∈ high_risk_keywords)
    (hkw : kw ∈ ck.2) (hmatch : keyword_match m kw = true) :
    riskIndicatorsFull m = highIndicators m :=
  full_eq_high_of_ne
    (ne_nil_of_mem (mkIndicator_mem_highIndicators ck hck hkw hmatch))

/-- **C6** — (a) any high-risk-category match suppresses the medium-risk
scan entirely: no returned indicator is a medium-risk indicator; (b) a
text matching only `"extreme_despair"`, `"abuse"` or `"acute_crisis"`
phrases — whatever medium-risk keywords it also contains — is reported
with `is_high_risk = false` and `risk_level = "low"`. -/
theorem c6_asymmetric_policy (message : List Char) :
    ((∃ ck ∈ high_risk_keywords, ∃ kw ∈ ck.2,
        keyword_match (message.map Char.toLower) kw = true) →
      ∀ ind ∈ (assess_risk message).risk_indicators,
        mediumCat ind = false) ∧
    ((∃ kw ∈ extremeDespairKeywords ++ abuseKeywords ++ acuteCrisisKeywords,
        keyword_match (message.map Char.toLower) kw = true) →
      (∀ kw ∈ suicideKeywords ++ selfHarmKeywords,
        keyword_match (message.map Char.toLower) kw = false) →
      (assess_risk message).is_high_risk = false ∧
        (assess_risk message).risk_level = "low".data ∧
        ∀ ind ∈ (assess_risk message).risk_indicators,
          mediumCat ind = false) := by
  have hpart1 : (∃ ck ∈ high_risk_keywords, ∃ kw ∈ ck.2,
      keyword_match (message.map Char.toLower) kw = true) →
      ∀ ind ∈ (assess_risk message).risk_indicators,
        mediumCat ind = false := by
    rintro ⟨ck, hck, kw, hkw, hmatch⟩ ind hmem
    rw [assess_indicators_eq] at hmem
    have hfull := List.mem_of_mem_take hmem
    rw [full_eq_high_of_match hck hkw hmatch] at hfull
    exact highStrings_not_mediumCat ind (highIndicators_mem_strings hfull)
  refine ⟨hpart1, ?_⟩
  rintro ⟨kw, hkw, hmatch⟩ hnoss
  -- name the matched category pair
  have hck : ∃ ck ∈ high_risk_keywords, kw ∈ ck.2 := by
    rcases List.mem_append.mp hkw with h | h
    · rcases List.mem_append.mp h with h | h
      · exact ⟨("extreme_despair".data, extremeDespairKeywords), by decide, h⟩
      · exact ⟨("abuse".data, abuseKeywords), by decide, h⟩
    · exact ⟨("acute_crisis".data, acuteCrisisKeywords), by decide, h⟩
  obtain ⟨ck, hckmem, hkwck⟩ := hck
  have hfullhigh := full_eq_high_of_match hckmem hkwck hmatch
  -- the suicide/self-harm sub-lists match nothing, so no indicator is high
  have hss : ssMatched (message.map Char.toLower) = [] := by
    have h1 : suicideKeywords.filter
        (keyword_match (message.map Char.toLower)) = [] :=
      List.filter_eq_nil.mpr fun a ha => by
        rw [hnoss a (List.mem_append_left _ ha)]
        simp
    have h2 : selfHarmKeywords.filter
        (keyword_match (message.map Char.toLower)) = [] :=
      List.filter_eq_nil.mpr fun a ha => by
        rw [hnoss a (List.mem_append_right _ ha)]
        simp
    simp [ssMatched, catIndicators, h1, h2]
  have hany : (riskIndicatorsFull (message.map Char.toLower)).any
      indicatorIsHigh = false := by
    rw [hfullhigh, highIndicators_decomp, hss, List.nil_append,
      List.any_eq_false]
    intro x hx
    rw [otherMatched_not_isHigh hx]
    simp
  have hcnt : ((riskIndicatorsFull (message.map Char.toLower)).filter
      indicatorIsMediumTagged).length < 2 := by
    have hz : (riskIndicatorsFull (message.map Char.toLower)).filter
        indicatorIsMediumTagged = [] :=
      List.filter_eq_nil.mpr fun a ha => by
        rw [hfullhigh] at ha
        rw [highStrings_not_isMedTagged a (highIndicators_mem_strings ha)]
        simp
    rw [hz]
    simp
  rw [assess_risk_low hany hcnt]
  refine ⟨rfl, rfl, ?_⟩
  intro ind hmem
  have hfull := List.mem_of_mem_take hmem
  rw [hfullhigh] at hfull
  exact highStrings_not_mediumCat ind (highIndicators_mem_strings hfull)

/-- Witness for C6 on a text matching only an `"extreme_despair"` phrase
together with a medium-risk keyword. -/
theorem c6_asymmetric_policy_witness :
    (assess_risk "so hopeless and depressed".data).is_high_risk = false ∧
    (assess_risk "so hopeless and depressed".data).risk_level = "low".data ∧
    ∀ ind ∈ (assess_risk "so hopeless and depressed".data).risk_indicators,
      mediumCat ind = false :=
  (c6_asymmetric_policy "so hopeless and depressed".data).2
    ⟨"hopeless".data, by decide, by decide⟩ (by decide)

theorem highIndicators_eq_nil_of_no_match {m : List Char}
    (hhigh : ∀ ck ∈ high_risk_keywords, ∀ kw ∈ ck.2,
      keyword_match m kw = false) :
    highIndicators m = [] := by
  rw [highIndicators_decomp]
  have hcat : ∀ cat kws, (∀ kw ∈ kws, keyword_match m kw = false) →
      catIndicators cat kws m = [] := by
    intro cat kws h
    rw [catIndicators, List.filter_eq_nil.mpr fun a ha => by
      rw [h a ha]; simp]
    rfl
  rw [ssMatched, otherMatched,
    hcat _ _ (hhigh ("suicide".data, suicideKeywords) (by decide)),
    hcat _ _ (hhigh ("self_harm".data, selfHarmKeywords) (by decide)),
    hcat _ _ (hhigh ("extreme_despair".data, extremeDespairKeywords)
      (by decide)),
    hcat _ _ (hhigh ("abuse".data, abuseKeywords) (by decide)),
    hcat _ _ (hhigh ("acute_crisis".data, acuteCrisisKeywords) (by decide))]
  rfl

/-- **C7** — with no high-risk phrase matched, exactly one matched
medium-risk keyword yields `risk_level = "low"` and exactly two yield
`risk_level = "medium"`. -/
theorem c7_medium_counts (message : List Char)
    (hhigh : ∀ ck ∈ high_risk_keywords, ∀ kw ∈ ck.2,
      keyword_match (message.map Char.toLower) kw = false) :
    ((medium_risk_keywords.filter
        (keyword_match (message.map Char.toLower))).length = 1 →
      (assess_risk message).risk_level = "low".data) ∧
    ((medium_risk_keywords.filter
        (keyword_match (message.map Char.toLower))).length = 2 →
      (assess_risk message).risk_level = "medium".data) := by
  have hempty := highIndicators_eq_nil_of_no_match hhigh
  have hfull : riskIndicatorsFull (message.map Char.toLower) =
      mediumIndicators (message.map Char.toLower) := by
    rcases riskIndicatorsFull_cases (message.map Char.toLower) with
      ⟨_, hne⟩ | ⟨heq, _⟩
    · exact absurd hempty hne
    · exact heq
  have hany : (riskIndicatorsFull (message.map Char.toLower)).any
      indicatorIsHigh = false := by
    rw [hfull, List.any_eq_false]
    intro x hx
    rw [mediumStrings_not_isHigh x (mediumIndicators_mem_strings hx)]
    simp
  have hlen : ((riskIndicatorsFull (message.map Char.toLower)).filter
      indicatorIsMediumTagged).length =
      (medium_risk_keywords.filter
        (keyword_match (message.map Char.toLower))).length := by
    rw [hfull,
      List.filter_eq_self.mpr fun a ha =>
        mediumStrings_isMedTagged a (mediumIndicators_mem_strings ha),
      mediumIndicators, List.length_map]
  constructor
  · intro h1
    rw [assess_risk_low hany (by omega)]
  · intro h2
    rw [assess_risk_medium hany (by omega)]

/-- Witness for C7 on a text with exactly two medium-risk keywords. -/
theorem c7_medium_counts_witness :
    (assess_risk "I feel depressed and overwhelmed".data).risk_level =
      "medium".data :=
  (c7_medium_counts "I feel depressed and overwhelmed".data (by decide)).2
    (by decide)

/-- The high/low decision of lines 68–77, as a function of an indicator
list. -/
def tier_is_high (inds : List (List Char)) : Bool :=
  !inds.isEmpty && inds.any indicatorIsHigh

/-- The risk-level decision of lines 68–77, as a function of an indicator
list. -/
def tier_level (inds : List (List Char)) : List Char :=
  if tier_is_high inds then "high".data
  else if 2 ≤ (inds.filter indicatorIsMediumTagged).length then "medium".data
  else "low".data

theorem isEmpty_false_of_any {α : Type} {l : List α} {p : α → Bool}
    (h : l.any p = true) : l.isEmpty = false := by
  obtain ⟨x, hx, _⟩ := List.any_eq_true.mp h
  rcases l with _ | ⟨a, t⟩
  · exact absurd hx (List.not_mem_nil x)
  · rfl

/-- **C8** — the returned indicator list is the 5-element truncation of the
full match list (so its length is at most 5), while both tier fields are
computed from the full, untruncated list. -/
theorem c8_truncation (message : List Char) :
    (assess_risk message).risk_indicators.length ≤ 5 ∧
    (assess_risk message).risk_indicators =
      (riskIndicatorsFull (message.map Char.toLower)).take 5 ∧
    (assess_risk message).is_high_risk =
      tier_is_high (riskIndicatorsFull (message.map Char.toLower)) ∧
    (assess_risk message).risk_level =
      tier_level (riskIndicatorsFull (message.map Char.toLower)) := by
  refine ⟨?_, assess_indicators_eq message, ?_, ?_⟩
  · rw [assess_indicators_eq]
    exact List.length_take_le 5 _
  · rcases hA : (riskIndicatorsFull (message.map Char.toLower)).any
        indicatorIsHigh with _ | _
    · by_cases hC : 2 ≤ ((riskIndicatorsFull
          (message.map Char.toLower)).filter indicatorIsMediumTagged).length
      · rw [assess_risk_medium hA hC]
        simp [tier_is_high, hA]
      · rw [assess_risk_low hA (by omega)]
        simp [tier_is_high, hA]
    · rw [assess_risk_high hA]
      simp [tier_is_high, hA, isEmpty_false_of_any hA]
  · rcases hA : (riskIndicatorsFull (message.map Char.toLower)).any
        indicatorIsHigh with _ | _
    · by_cases hC : 2 ≤ ((riskIndicatorsFull
          (message.map Char.toLower)).filter indicatorIsMediumTagged).length
      · rw [assess_risk_medium hA hC]
        simp [tier_level, tier_is_high, hA, hC]

      · rw [assess_risk_low hA (by omega)]
        simp [tier_level, tier_is_high, hA, hC]
    · rw [assess_risk_high hA]
      simp [tier_level, tier_is_high, hA, isEmpty_false_of_any hA]

/-- If the two-word phrase `"suicidal thoughts"` word-boundary-matches,
then so does its first word `"suicidal"`: the left boundary is shared and
the space after `"suicidal"` supplies the right boundary. -/
theorem match_suicidal_of_match_suicidal_thoughts {m : List Char}
    (h : keyword_match m "suicidal thoughts".data = true) :
    keyword_match m "suicidal".data = true := by
  rw [keyword_match_iff] at h ⊢
  obtain ⟨i, h1, h2, h3⟩ := h
  have hpre : occursAt m "suicidal".data i = true := by
    rw [occursAt, List.isPrefixOf_iff_prefix]
    exact List.IsPrefix.trans (by decide) (prefix_of_occursAt h1)
  refine ⟨i, hpre, h2, ?_⟩
  have hw7 : isWordAt m (i + 7) = true := by
    have hh := isWordAt_of_occursAt h1 (j := 7) (by decide)
    rw [hh]
    decide
  have hw8 : isWordAt m (i + 8) = false := by
    have hh := isWordAt_of_occursAt h1 (j := 8) (by decide)
    rw [hh]
    decide
  have hlen : ("suicidal".data : List Char).length = 8 := by decide
  rw [hlen, boundaryAt]
  have hp : prevIsWord m (i + 8) = isWordAt m (i + 7) := rfl
  rw [hp, hw7, hw8]
  rfl

/-- **C9** — the medium-risk table entry `"suicidal thoughts"` is
unreachable: any text matching it also matches the suicide-category phrase
`"suicidal"`, so the medium scan is skipped and the indicator
`"medium_risk: suicidal thoughts"` is never returned. -/
theorem c9_medium_suicidal_thoughts_unreachable (message : List Char) :
    (keyword_match (message.map Char.toLower) "suicidal thoughts".data =
        true →
      keyword_match (message.map Char.toLower) "suicidal".data = true) ∧
    mkIndicator "medium_risk".data "suicidal thoughts".data ∉
      (assess_risk message).risk_indicators := by
  constructor
  · exact match_suicidal_of_match_suicidal_thoughts
  · intro hmem
    rw [assess_indicators_eq] at hmem
    have hfull := List.mem_of_mem_take hmem
    rcases riskIndicatorsFull_cases (message.map Char.toLower) with
      ⟨heq, _⟩ | ⟨heq, hnil⟩
    · rw [heq] at hfull
      exact absurd (highIndicators_mem_strings hfull) (by decide)
    · rw [heq] at hfull
      obtain ⟨kw, hkw, hmatch, hind⟩ := mem_mediumIndicators hfull
      have hkweq : "suicidal thoughts".data = kw := by
        unfold mkIndicator at hind
        exact List.append_cancel_left hind
      rw [← hkweq] at hmatch
      have hmatch2 := match_suicidal_of_match_suicidal_thoughts hmatch
      have hss : mkIndicator "suicide".data "suicidal".data ∈
          highIndicators (message.map Char.toLower) :=
        mkIndicator_mem_highIndicators
          ("suicide".data, suicideKeywords) (by decide) (by decide)
          hmatch2
      exact (ne_nil_of_mem hss) hnil

/-- Witness for C9 at a text that matches the unreachable entry. -/
theorem c9_medium_suicidal_thoughts_unreachable_witness :
    keyword_match ("I have suicidal thoughts".data.map Char.toLower)
      "suicidal thoughts".data = true ∧
    keyword_match ("I have suicidal thoughts".data.map Char.toLower)
      "suicidal".data = true ∧
    mkIndicator "medium_risk".data "suicidal thoughts".data ∉
      (assess_risk "I have suicidal thoughts".data).risk_indicators :=
  ⟨by decide,
    (c9_medium_suicidal_thoughts_unreachable
      "I have suicidal thoughts".data).1 (by decide),
    (c9_medium_suicidal_thoughts_unreachable
      "I have suicidal thoughts".data).2⟩

/-- **C10** — `get_resource_suggestions` returns the hand-authored list
for each of `"low"`, `"medium"`, `"high"`, and the `"low"` list for every
other argument; it is a pure function of its argument. -/
theorem c10_resource_lookup (risk_level : List Char) :
    (risk_level = "low".data →
      get_resource_suggestions risk_level = lowResources) ∧
    (risk_level = "medium".data →
      get_resource_suggestions risk_level = mediumResources) ∧
    (risk_level = "high".data →
      get_resource_suggestions risk_level = highResources) ∧
    (risk_level ≠ "low".data → risk_level ≠ "medium".data →
      risk_level ≠ "high".data →
      get_resource_suggestions risk_level = lowResources) := by
  refine ⟨?_, ?_, ?_, ?_⟩
  · intro h
    subst h
    decide
  · intro h
    subst h
    decide
  · intro h
    subst h
    decide
  · intro h1 h2 h3
    unfold get_resource_suggestions
    rw [if_neg h1, if_neg h2, if_neg h3]

/-- Witness for C10 at an unrecognized key. -/
theorem c10_resource_lookup_witness :
    get_resource_suggestions "unknown".data = lowResources :=
  (c10_resource_lookup "unknown".data).2.2.2 (by decide) (by decide)
    (by decide)

/-- Every keyword `assess_risk` scans for: the flattened high-risk table
followed by the medium-risk list (the low-risk list is informational only
and never passed to the matcher). -/
def trackedKeywords : List (List Char) :=
  high_risk_keywords.flatMap Prod.snd ++ medium_risk_keywords

/-- Every tracked keyword is non-empty and starts and ends with a word
character. -/
theorem tracked_word_ends :
    ∀ kw ∈ trackedKeywords, kw ≠ [] ∧ wordChar (kw.getD 0 ' ') = true ∧
      wordChar (kw.getD (kw.length - 1) ' ') = true := by decide

/-- Indicator strings determine their keyword across the finite tables
(high-risk side). -/
theorem mkIndicator_inj_high :
    ∀ cat ∈ "medium_risk".data :: high_risk_keywords.map Prod.fst,
      ∀ kw ∈ trackedKeywords, ∀ ck ∈ high_risk_keywords, ∀ kw0 ∈ ck.2,
        mkIndicator cat kw = mkIndicator ck.1 kw0 → kw = kw0 := by decide

/-- Indicator strings determine their keyword across the finite tables
(medium-risk side). -/
theorem mkIndicator_inj_medium :
    ∀ cat ∈ "medium_risk".data :: high_risk_keywords.map Prod.fst,
      ∀ kw ∈ trackedKeywords, ∀ kw0 ∈ medium_risk_keywords,
        mkIndicator cat kw = mkIndicator "medium_risk".data kw0 →
          kw = kw0 := by decide

/-- **C5** — a tracked keyword occurring only as a proper sub-token of a
longer word (a word character directly adjacent on at least one side of
every occurrence) is never matched, and `assess_risk` records no indicator
for it. -/
theorem c5_word_boundary_exact (kw message : List Char)
    (hkw : kw ∈ trackedKeywords)
    (hocc : ∀ i < (message.map Char.toLower).length,
      occursAt (message.map Char.toLower) kw i = true →
        prevIsWord (message.map Char.toLower) i = true ∨
        isWordAt (message.map Char.toLower) (i + kw.length) = true) :
    keyword_match (message.map Char.toLower) kw = false ∧
    ∀ ind ∈ (assess_risk message).risk_indicators,
      ∀ cat ∈ "medium_risk".data :: high_risk_keywords.map Prod.fst,
        ind ≠ mkIndicator cat kw := by
  obtain ⟨hne, hh, hl⟩ := tracked_word_ends kw hkw
  have hnomatch := keyword_match_eq_false_of_subtoken hne hh hl hocc
  refine ⟨hnomatch, ?_⟩
  intro ind hmem cat hcat heq
  rw [assess_indicators_eq] at hmem
  have hfull := List.mem_of_mem_take hmem
  rcases riskIndicatorsFull_cases (message.map Char.toLower) with
    ⟨hfe, _⟩ | ⟨hfe, _⟩
  · rw [hfe] at hfull
    obtain ⟨ck, hck, kw0, hkw0, hmatch, hind⟩ := mem_highIndicators hfull
    rw [heq] at hind
    have hkweq := mkIndicator_inj_high cat hcat kw hkw ck hck kw0 hkw0 hind
    rw [← hkweq] at hmatch
    rw [hnomatch] at hmatch
    exact absurd hmatch (by decide)
  · rw [hfe] at hfull
    obtain ⟨kw0, hkw0, hmatch, hind⟩ := mem_mediumIndicators hfull
    rw [heq] at hind
    have hkweq := mkIndicator_inj_medium cat hcat kw hkw kw0 hkw0 hind
    rw [← hkweq] at hmatch
    rw [hnomatch] at hmatch
    exact absurd hmatch (by decide)

/-- Witness for C5: `"abuse"` occurs in `"he abuses people"` only inside
the longer word `"abuses"` and is not matched. -/
theorem c5_word_boundary_exact_witness :
    "abuse".data ∈ trackedKeywords ∧
    keyword_match ("he abuses people".data.map Char.toLower)
      "abuse".data = false :=
  ⟨by decide,
    (c5_word_boundary_exact "abuse".data "he abuses people".data (by decide)
      (by decide)).1⟩

